import Mathlib

/-!
Verification development for the tiktok-creator-analysis backend.

Shallow embedding of the code in `backend/app/scrapers/tiktok_scraper.py`,
`backend/app/api/routes.py` and `backend/app/models/database.py`.
Python integers are modelled as `Int`; Python floats appearing in
`parse_count` are modelled exactly as scaled decimals `num / 10^pow10`
(IEEE-754 rounding, overflow of finite arithmetic to infinity beyond 1e308
and underflow are not modelled; no claim in scope depends on them); Python
dicts with possibly-missing keys are structures of `Option` fields;
fallible Python code returns `Except`.
-/

namespace TikTok

/-- Errors of the Python runtime that the embedded code can surface.
`parse_count` catches `ValueError` internally; `OverflowError` from
`int()` applied to an infinity is not caught anywhere in the source. -/
inductive PyError where
  | valueError
  | overflowError
deriving DecidableEq

/-- Value of a Python `float` produced by `float(<string>)`: a finite value
(a decimal string's value is exactly `num / 10 ^ pow10`), an infinity of
either sign, or a nan. -/
inductive PyFloat where
  | finite (num : Int) (pow10 : Nat)
  | inf
  | negInf
  | nan
deriving DecidableEq

/-- Truncation toward zero of `num / 10 ^ p`, the semantics of Python
`int()` on a finite float. -/
def decTrunc (num : Int) (p : Nat) : Int :=
  if 0 ≤ num then ((num.toNat / 10 ^ p : Nat) : Int)
  else -(((-num).toNat / 10 ^ p : Nat) : Int)

/-- The characters Python `str.strip()` (and `float()`) discard at both
ends, restricted to ASCII. -/
def isPyWS (c : Char) : Bool :=
  c = ' ' || c = '\t' || c = '\n' || c = '\r' || c = '\x0b' || c = '\x0c'

/-- Strip `isPyWS` characters from both ends of a character list. -/
def stripWS (cs : List Char) : List Char :=
  ((cs.dropWhile isPyWS).reverse.dropWhile isPyWS).reverse

/-- Optional sign at the head of a float literal: `(isNegative, rest)`. -/
def parseSign : List Char → Bool × List Char
  | '-' :: cs => (true, cs)
  | '+' :: cs => (false, cs)
  | cs => (false, cs)

/-- A run of decimal digits with single underscores allowed between digits,
as Python numeric literals accept: returns `(value, digitCount, rest)`,
`none` when an underscore is not surrounded by digits. -/
def digitsRunAux : Nat → Nat → List Char → Option (Nat × Nat × List Char)
  | v, n, [] => some (v, n, [])
  | v, n, '_' :: cs =>
    match cs with
    | d :: cs2 =>
      if d.isDigit then digitsRunAux (10 * v + (d.toNat - 48)) (n + 1) cs2 else none
    | [] => none
  | v, n, c :: cs =>
    if c.isDigit then digitsRunAux (10 * v + (c.toNat - 48)) (n + 1) cs
    else some (v, n, c :: cs)

/-- A digit run must start with a digit. -/
def digitsRun : List Char → Option (Nat × Nat × List Char)
  | c :: cs => if c.isDigit then digitsRunAux (c.toNat - 48) 1 cs else none
  | [] => none

/-- Significand of a float literal: `digits`, `digits.`, `digits.digits` or
`.digits`; its exact value is `(scaled value, fraction digits, rest)`. -/
def parseSignificand (cs : List Char) : Option (Nat × Nat × List Char) :=
  match digitsRun cs with
  | some (ip, _, rest) =>
    match rest with
    | '.' :: rest2 =>
      match digitsRun rest2 with
      | some (fp, fn, rest3) => some (ip * 10 ^ fn + fp, fn, rest3)
      | none => some (ip, 0, rest2)
    | _ => some (ip, 0, rest)
  | none =>
    match cs with
    | '.' :: rest2 =>
      match digitsRun rest2 with
      | some (fp, fn, rest3) => some (fp, fn, rest3)
      | none => none
    | _ => none

/-- Optional exponent part `E[sign]digits` (input is already uppercased). -/
def parseExpPart : List Char → Option (Int × List Char)
  | 'E' :: cs =>
    match parseSign cs with
    | (neg, cs2) =>
      match digitsRun cs2 with
      | some (e, _, rest) => some (if neg then -(e : Int) else (e : Int), rest)
      | none => none
  | cs => some (0, cs)

/-- Scale a significand `n / 10 ^ p` by `10 ^ e`. -/
def applyExp (n : Nat) (p : Nat) (e : Int) : Nat × Nat :=
  if 0 ≤ e then (n * 10 ^ e.toNat, p) else (n, p + (-e).toNat)

/-- Models Python `float()` on a character list: strip whitespace,
case-insensitive `inf` / `infinity` / `nan` or a decimal literal with
optional exponent; `none` models `ValueError`. -/
def pyFloatOfChars (s : List Char) : Option PyFloat :=
  let cs := (stripWS s).map Char.toUpper
  match parseSign cs with
  | (neg, rest) =>
    if rest = ['I', 'N', 'F'] ∨ rest = ['I', 'N', 'F', 'I', 'N', 'I', 'T', 'Y'] then
      some (if neg then PyFloat.negInf else PyFloat.inf)
    else if rest = ['N', 'A', 'N'] then some PyFloat.nan
    else
      match parseSignificand rest with
      | none => none
      | some (m, p, rest2) =>
        match parseExpPart rest2 with
        | none => none
        | some (e, rest3) =>
          if rest3 = [] then
            match applyExp m p e with
            | (n, q) => some (PyFloat.finite (if neg then -(n : Int) else (n : Int)) q)
          else none

/-- Multiplying a float by a positive integer multiplier. -/
def pyMul (f : PyFloat) (m : Nat) : PyFloat :=
  match f with
  | PyFloat.finite num p => PyFloat.finite (num * (m : Int)) p
  | x => x

/-- Models `try: return int(float(s) * m) except ValueError: return 0` —
the body of each branch of `parse_count`.  A `float()` parse failure and
`int(nan)` raise `ValueError`, which the source catches (yielding 0);
`int()` of an infinity raises `OverflowError`, which it does not catch. -/
def parseBranchInt (s : List Char) (m : Nat) : Except PyError Int :=
  match pyFloatOfChars s with
  | none => Except.ok 0
  | some f =>
    match pyMul f m with
    | PyFloat.finite num p => Except.ok (decTrunc num p)
    | PyFloat.nan => Except.ok 0
    | PyFloat.inf => Except.error PyError.overflowError
    | PyFloat.negInf => Except.error PyError.overflowError

/-- Models `text.strip().upper().replace(",", "")` in `parse_count`. -/
def pyNormalize (cs : List Char) : List Char :=
  ((stripWS cs).map Char.toUpper).filter (fun c => !(c = ','))

/-- Last character test, modelling `str.endswith` with a one-character
suffix (the only kind `parse_count` uses). -/
def lastIs (cs : List Char) (c : Char) : Bool :=
  match cs.getLast? with
  | some d => d = c
  | none => false

/-- The suffix dispatch of `parse_count`: the K/M/B loop (the multiplier
dict is iterated in insertion order K, M, B, at most one suffix can match,
and a match returns from inside the loop), then the plain-number branch. -/
def countBranches (t : List Char) : Except PyError Int :=
  if lastIs t 'K' then parseBranchInt t.dropLast 1000
  else if lastIs t 'M' then parseBranchInt t.dropLast 1000000
  else if lastIs t 'B' then parseBranchInt t.dropLast 1000000000
  else parseBranchInt t 1

/-- `parse_count` from `tiktok_scraper.py`: a falsy (empty) string
short-circuits to 0, otherwise normalize and dispatch on the trailing
suffix. -/
def parse_count (text : String) : Except PyError Int :=
  if text = "" then Except.ok 0
  else countBranches (pyNormalize text.data)

/-! ## Video dictionaries

The Python dicts produced by the extractors, the demo generator and
consumed by `_upsert_videos` and the routes.  A missing key is `none`;
`v.get(key, default)` is `Option.getD`.  Timestamps are carried as their
ISO strings (`datetime.fromisoformat` on a well-formed string is modelled
as the identity on it). -/

structure VideoDict where
  username : Option String := none
  url : Option String := none
  video_id : Option String := none
  caption : Option String := none
  views : Option Int := none
  likes : Option Int := none
  comments : Option Int := none
  shares : Option Int := none
  posted_at : Option String := none
  duration : Option Int := none
  hashtags : Option String := none
deriving DecidableEq

/-! ## Item mapper and the two tiers that call it (`_parse_api_video`,
`handle_response`, `_extract_from_embedded_json`) -/

/-- The nested `stats` object of a TikTok API item, fields optional. -/
structure PyStats where
  playCount : Option Int := none
  diggCount : Option Int := none
  likeCount : Option Int := none
  commentCount : Option Int := none
  shareCount : Option Int := none
deriving DecidableEq

/-- A TikTok API / embedded-JSON video item, restricted to the keys
`_parse_api_video` reads.  The id fields carry the `str()` rendering of
the JSON value (absent key is `none`); `videoDuration` is
`item["video"]["duration"]`; `textExtra` is the list of the entries'
optional `hashtagName` values. -/
structure PyItem where
  id : Option String := none
  video_id : Option String := none
  desc : Option String := none
  stats : Option PyStats := none
  videoDuration : Option Int := none
  textExtra : List (Option String) := []
deriving DecidableEq

/-- `str(item.get("id", item.get("video_id", "")))`. -/
def itemVideoId (item : PyItem) : String :=
  item.id.getD (item.video_id.getD "")

/-- `",".join(t.get("hashtagName", "") for t in textExtra if t.get("hashtagName"))`. -/
def joinHashtags (tags : List (Option String)) : String :=
  String.intercalate "," ((tags.map (fun t => t.getD "")).filter (fun s => !(s = "")))

/-- `_parse_api_video` from `tiktok_scraper.py`: an item whose id renders
falsy (empty) yields `None`; otherwise the record-shaping shown in the
source (`likes` prefers `diggCount` over `likeCount`; no `posted_at` key
is ever set). -/
def parse_api_video (item : PyItem) (username : String) : Option VideoDict :=
  let video_id := itemVideoId item
  if video_id = "" then none
  else
    let stats := item.stats.getD {}
    some
      { username := some username
        url := some ("https://www.tiktok.com/@" ++ username ++ "/video/" ++ video_id)
        video_id := some video_id
        caption := some (item.desc.getD "")
        views := some (stats.playCount.getD 0)
        likes := some (stats.diggCount.getD (stats.likeCount.getD 0))
        comments := some (stats.commentCount.getD 0)
        shares := some (stats.shareCount.getD 0)
        duration := some (item.videoDuration.getD 0)
        hashtags := some (joinHashtags item.textExtra) }

/-- What `handle_response` appends to `api_videos` for an intercepted
item list: `api_videos.append(_parse_api_video(item, username))` for every
item — the `None` results are appended too, unfiltered. -/
def apiListenItems (username : String) (items : List PyItem) : List (Option VideoDict) :=
  items.map (fun it => parse_api_video it username)

/-- What the `itemList` loop of `_extract_from_embedded_json` appends to
its video list: `v = _parse_api_video(item, username); if v: videos.append(v)`
— `None` results are dropped. -/
def embeddedListItems (username : String) (items : List PyItem) : List VideoDict :=
  items.filterMap (fun it => parse_api_video it username)

/-! ## Merge of the three extraction tiers (`_scrape_tiktok_user_sync`,
lines 125–136).  The merge never inspects the elements, so it is stated
for an arbitrary element type (in the source the API list may contain
`None` entries while the other two hold dicts). -/

/-- `if api_videos: videos = api_videos[:video_limit] elif json_videos: ...
elif dom_videos: ... else: pass` (with `videos` initialised to `[]`). -/
def mergeVideos {α : Type} (apiVideos jsonVideos domVideos : List α) (limit : Nat) : List α :=
  if apiVideos.isEmpty then
    if jsonVideos.isEmpty then
      if domVideos.isEmpty then []
      else domVideos.take limit
    else jsonVideos.take limit
  else apiVideos.take limit

/-- Specification-side merge: the first non-empty list of the given
priority order, `[]` when all are empty. -/
def firstNonEmpty {α : Type} : List (List α) → List α
  | [] => []
  | l :: ls => if l.isEmpty then firstNonEmpty ls else l

/-! ## Authenticity classifier and demo fallback (`routes.py`,
`add_creator` lines 147–157 and `scrape_creator` lines 296–304) -/

/-- `[v for v in videos if v.get("views", 0) > 0 or v.get("likes", 0) > 0]`. -/
def real_videos (videos : List VideoDict) : List VideoDict :=
  videos.filter (fun v => decide (0 < v.views.getD 0) || decide (0 < v.likes.getD 0))

/-- The videos are classified real when `real_videos` is non-empty
(`if not real_videos:` triggers the fallback). -/
def classifiedReal (videos : List VideoDict) : Bool :=
  !(real_videos videos).isEmpty

/-- The route's video-selection step: keep the scraped list when it is
classified real, otherwise substitute the generated demo batch and set
`used_demo`. -/
def selectVideos (scraped demo : List VideoDict) : List VideoDict × Bool :=
  if classifiedReal scraped then (scraped, false) else (demo, true)

/-- Final stored follower count after one scrape, from the sequence in
`scrape_creator` (and `add_creator`'s non-exception path): first
`if follower_count > 1000: creator.follower_count = follower_count`, then
inside the demo branch `if follower_count < 1000: creator.follower_count
= random.randint(500_000, 20_000_000)` (the random value is the `demoFc`
argument). -/
def followerUpdate (stored fc : Int) (videos : List VideoDict) (demoFc : Int) : Int :=
  let s1 := if 1000 < fc then fc else stored
  if !(classifiedReal videos) && decide (fc < 1000) then demoFc else s1

/-! ## Synthetic data generator (`_generate_demo_videos` in `routes.py`,
`generate_sample_videos` in `collect_demo_data.py`).  The random draws are
the parameters; `random.uniform` values are modelled as arbitrary
rationals in the drawn range. -/

/-- The discrete multiplier set of the generator,
`random.choice([0.1, 0.2, 0.3, 0.5, 0.5, 0.8, 1.0, 1.5, 3.0, 10.0])`. -/
def multChoices : List Rat :=
  [1/10, 1/5, 3/10, 1/2, 1/2, 4/5, 1, 3/2, 3, 10]

/-- Truncation toward zero of a rational, Python `int()` on the exact
value. -/
def ratTrunc (q : Rat) : Int :=
  if 0 ≤ q.num then ((q.num.toNat / q.den : Nat) : Int)
  else -(((-q.num).toNat / q.den : Nat) : Int)

/-- `views = int(base_views * mult * random.uniform(0.5, 1.5))`. -/
def demoViews (baseViews : Int) (mult jitter : Rat) : Int :=
  ratTrunc ((baseViews : Rat) * mult * jitter)

/-- `likes = int(views * random.uniform(0.05, 0.20))`. -/
def demoLikes (views : Int) (likeRatio : Rat) : Int :=
  ratTrunc ((views : Rat) * likeRatio)

/-! ## Persistence (`database.py` and `_upsert_videos`, `delete_creator`
in `routes.py`).

A `videos` table row; the surrogate autoincrement primary key is omitted
(no claim mentions it), `video_id` carries the UNIQUE constraint.  The
session is created with `autoflush=False`, so inside one `_upsert_videos`
pass a `db.query(...)` existence check sees only the rows committed before
the pass (pending `db.add` objects are invisible to it), while updates to
already-committed rows are visible through the identity map; the UNIQUE
constraint on `video_id` is enforced at `db.commit()`. -/

structure VideoRow where
  creator_id : Int
  video_id : String
  caption : String
  views : Int
  likes : Int
  comments : Int
  shares : Int
  posted_at : Option String
  duration : Int
  hashtags : String
deriving DecidableEq

/-- A `creators` table row (`created_at` omitted; no claim mentions it). -/
structure CreatorRow where
  id : Int
  username : String
  niche : String
  follower_count : Int
deriving DecidableEq

/-- The persisted state: all committed rows of both tables. -/
structure DBState where
  creators : List CreatorRow
  videos : List VideoRow
deriving DecidableEq

/-- The database error raised at `db.commit()` when a pending insert
violates the UNIQUE constraint on `videos.video_id`. -/
inductive DBError where
  | integrityError
deriving DecidableEq

/-- The metric overwrite of the update branch of `_upsert_videos`:
`existing.views = v.get("views", 0)` and likewise for likes, comments,
shares — nothing else is touched. -/
def refreshMetrics (r : VideoRow) (v : VideoDict) : VideoRow :=
  { r with
    views := v.views.getD 0
    likes := v.likes.getD 0
    comments := v.comments.getD 0
    shares := v.shares.getD 0 }

/-- The insert branch of `_upsert_videos`: a fresh `Video(...)` row built
from the dict with the `.get` defaults of the source (`posted_at` is
parsed only when truthy, i.e. present and non-empty). -/
def rowOfDict (cid : Int) (vid : String) (v : VideoDict) : VideoRow :=
  { creator_id := cid
    video_id := vid
    caption := v.caption.getD ""
    views := v.views.getD 0
    likes := v.likes.getD 0
    comments := v.comments.getD 0
    shares := v.shares.getD 0
    posted_at := v.posted_at.bind (fun s => if s = "" then none else some s)
    duration := v.duration.getD 0
    hashtags := v.hashtags.getD "" }

/-- `v.get("video_id", "")`. -/
def dictVid (v : VideoDict) : String :=
  v.video_id.getD ""

/-- Update the first committed row matching `vid` (what
`db.query(Video).filter(Video.video_id == vid).first()` followed by the
metric assignments does). -/
def updateFirst (rows : List VideoRow) (vid : String) (v : VideoDict) : List VideoRow :=
  match rows with
  | [] => []
  | r :: rs =>
    if r.video_id = vid then refreshMetrics r v :: rs
    else r :: updateFirst rs vid v

/-- The loop of `_upsert_videos` over one batch, before `db.commit()`:
returns `(committed rows as updated in place, pending inserts in order,
count)`.  The existence check `committed.any ...` runs against the
committed rows only — pending inserts are not flushed (`autoflush=False`),
so it cannot see a row added earlier in the same pass. -/
def upsertLoop (committed : List VideoRow) (cid : Int) :
    List VideoDict → List VideoRow × List VideoRow × Nat
  | [] => (committed, [], 0)
  | v :: rest =>
    if dictVid v = "" then upsertLoop committed cid rest
    else if committed.any (fun r => r.video_id == dictVid v) then
      let out := upsertLoop (updateFirst committed (dictVid v) v) cid rest
      (out.1, out.2.1, out.2.2 + 1)
    else
      let out := upsertLoop committed cid rest
      (out.1, rowOfDict cid (dictVid v) v :: out.2.1, out.2.2 + 1)

/-- The `video_id` column of a row list. -/
def rowIds (rows : List VideoRow) : List String :=
  rows.map (fun r => r.video_id)

/-- The non-skipped external ids of a batch, in order. -/
def batchIds (videos : List VideoDict) : List String :=
  (videos.map dictVid).filter (fun s => !(s == ""))

/-- `_upsert_videos(db, creator_id, videos)`: run the loop, then
`db.commit()`, which enforces the UNIQUE constraint on `video_id` over
the resulting table (raising `IntegrityError` on a violation, in which
case nothing is persisted). -/
def upsertVideos (committed : List VideoRow) (cid : Int) (videos : List VideoDict) :
    Except DBError (List VideoRow × Nat) :=
  let out := upsertLoop committed cid videos
  let all := out.1 ++ out.2.1
  if (rowIds all).Nodup then Except.ok (all, out.2.2) else Except.error DBError.integrityError

/-- `delete_creator` from `routes.py`: 404 when no creator has the id;
otherwise delete all video rows with that `creator_id`, then the creator
row, then commit (one atomic transaction from the caller's perspective).
Creator ids are primary keys, so deleting the single matched creator
equals filtering on the id. -/
def delete_creator (db : DBState) (cid : Int) : Except Nat DBState :=
  if db.creators.any (fun c => c.id == cid) then
    Except.ok
      { creators := db.creators.filter (fun c => !(c.id == cid))
        videos := db.videos.filter (fun v => !(v.creator_id == cid)) }
  else Except.error 404

/-- Referential integrity: every persisted video's `creator_id` is the id
of some persisted creator. -/
def refIntegrity (db : DBState) : Prop :=
  ∀ v ∈ db.videos, ∃ c ∈ db.creators, c.id = v.creator_id

/-! ## Scrape orchestration (`_scrape_tiktok_user_sync` and the
`add_creator` route's validation).

The browser environment is abstracted as the outcome of the attempt:
the `try:` block can raise at any point (navigation timeout, network
error, a selector failure, —) and the `except Exception` clause catches
everything, leaving `videos = []` and `profile` either unassigned (failure
before line 99; the `'profile' in dir()` hack then substitutes `{}`) or
the extracted profile dict. -/

/-- The profile dict built by `_extract_from_embedded_json`. -/
structure Profile where
  username : String := ""
  nickname : String := ""
  bio : String := ""
  followers : Int := 0
  following : Int := 0
  likes : Int := 0
  video_count : Int := 0
deriving DecidableEq

/-- Outcome of one browser attempt: where (if anywhere) the `try:` block
raised, and what the three extraction tiers produced when it completed. -/
inductive ScrapeEnv where
  | failBeforeProfile : ScrapeEnv
  | failAfterProfile (profile : Profile) : ScrapeEnv
  | complete (profile : Profile) (api : List (Option VideoDict))
      (jsonV domV : List VideoDict) : ScrapeEnv

/-- Return value of `_scrape_tiktok_user_sync`: `{"profile": ..., "videos":
...}`; `profile = none` models the empty dict `{}`.  The API tier's list
may contain `None` entries, so the merged list elements are optional. -/
structure ScrapeResult where
  profile : Option Profile
  videos : List (Option VideoDict)
deriving DecidableEq

/-- `_scrape_tiktok_user_sync` as a function of the attempt outcome: every
exception inside the `try:` block is caught and degrades to an empty video
list (the browser is closed in `finally:` either way); a completed attempt
merges the three tiers with API > embedded JSON > DOM priority. -/
def scrapeSync (username : String) (limit : Nat) (env : ScrapeEnv) : ScrapeResult :=
  match env with
  | ScrapeEnv.failBeforeProfile => { profile := none, videos := [] }
  | ScrapeEnv.failAfterProfile p => { profile := some p, videos := [] }
  | ScrapeEnv.complete p api jsonV domV =>
    { profile := some p
      videos := mergeVideos api (jsonV.map some) (domV.map some) limit }

/-- `username.strip().lstrip("@")` in `add_creator`. -/
def stripUser (raw : String) : String :=
  ⟨(stripWS raw.data).dropWhile (fun c => c = '@')⟩

/-- `USERNAME_RE = re.compile(r"^[\w.]{1,30}$")` matching, restricted to
ASCII word characters (Python `\w` also matches further Unicode word
characters; no claim depends on those). -/
def usernameValid (u : String) : Bool :=
  !(u = "") && decide (u.length ≤ 30) && u.data.all (fun c => c.isAlphanum || c = '_' || c = '.')

/-- The validation-then-scrape prefix of the `add_creator` route: an
invalid username is rejected with HTTP 400 before any browser work; a
valid one is scraped with the default `video_limit=30`.  (The 409
duplicate check and the persistence that follow are modelled separately.) -/
def addCreatorScrape (raw : String) (env : ScrapeEnv) : Except Nat ScrapeResult :=
  let u := stripUser raw
  if !(usernameValid u) then Except.error 400
  else Except.ok (scrapeSync u 30 env)

/-! ## Concrete sample values used by the closed theorems below -/

/-- An item carrying neither `id` nor `video_id`. -/
def itemNoId : PyItem := {}

/-- An item with an id whose stats has `diggCount` but no `likeCount`. -/
def itemDigg : PyItem :=
  { id := some "7123456789012345678"
    stats := some { diggCount := some 42 } }

/-- A record with a negative view count and zero likes. -/
def negViewsRec : VideoDict :=
  { video_id := some "7000000000000000009", views := some (-1), likes := some 0 }

/-- A record with all metrics zero. -/
def zeroRec : VideoDict :=
  { video_id := some "7000000000000000001", views := some 0, likes := some 0 }

/-- A record with zero views and one like. -/
def oneLikeRec : VideoDict :=
  { video_id := some "7000000000000000002", views := some 0, likes := some 1 }

/-- A batch element with a fresh external id. -/
def vidA : VideoDict :=
  { video_id := some "7000000000000000003", views := some 10, likes := some 2 }

/-- A second batch element with a distinct external id. -/
def vidB : VideoDict :=
  { video_id := some "7000000000000000004", views := some 20, likes := some 3 }

/-- A dict updating the metrics of the persisted row `rowA`. -/
def vidANew : VideoDict :=
  { video_id := some "7000000000000000003", caption := some "changed"
    views := some 99, likes := some 9, comments := some 1, shares := some 2 }

/-- A persisted row with external id matching `vidA`/`vidANew`. -/
def rowA : VideoRow :=
  { creator_id := 1, video_id := "7000000000000000003", caption := "orig"
    views := 10, likes := 2, comments := 0, shares := 0
    posted_at := some "2026-01-01T00:00:00", duration := 30, hashtags := "fyp" }

/-- A persisted row owned by creator 2. -/
def rowB : VideoRow :=
  { creator_id := 2, video_id := "7000000000000000004", caption := ""
    views := 20, likes := 3, comments := 0, shares := 0
    posted_at := none, duration := 15, hashtags := "" }

/-- Creator row 1. -/
def creator1 : CreatorRow :=
  { id := 1, username := "alice", niche := "", follower_count := 5000000 }

/-- Creator row 2. -/
def creator2 : CreatorRow :=
  { id := 2, username := "bob", niche := "", follower_count := 100 }

/-- A two-creator, two-video database. -/
def dbSample : DBState :=
  { creators := [creator1, creator2], videos := [rowA, rowB] }

/-! ## Helper lemmas -/

/-- An error escaping a `parse_count` branch can only be the uncaught
`OverflowError` from `int()` on an infinity. -/
theorem parseBranchInt_error (s : List Char) (m : Nat) (e : PyError)
    (h : parseBranchInt s m = Except.error e) : e = PyError.overflowError := by
  unfold parseBranchInt at h
  cases hf : pyFloatOfChars s with
  | none => rw [hf] at h; exact absurd h (by simp)
  | some f =>
    rw [hf] at h
    cases f with
    | finite num p => simp [pyMul] at h
    | nan => simp [pyMul] at h
    | inf => simp [pyMul] at h; exact h.symm
    | negInf => simp [pyMul] at h; exact h.symm

/-- A filtered list is non-empty exactly when some element passes. -/
theorem not_isEmpty_filter {α : Type} (p : α → Bool) (l : List α) :
    (!((l.filter p).isEmpty)) = l.any p := by
  induction l with
  | nil => rfl
  | cons a l ih => cases hp : p a <;> simp [List.filter_cons, hp, ih]

end TikTok

namespace TikTok

/-! ## C1: merge priority -/

/-- C1: the merged output of `_scrape_tiktok_user_sync` equals the first
non-empty source in the fixed order API, embedded JSON, DOM, truncated to
the requested limit — and equally the first non-empty of the
already-truncated sources — so lower-priority sources never supplement a
higher-priority source's partial results. -/
theorem merge_priority_first_nonempty (α : Type) (api json dom : List α) (limit : Nat) :
    mergeVideos api json dom limit = (firstNonEmpty [api, json, dom]).take limit ∧
    mergeVideos api json dom limit =
      firstNonEmpty [api.take limit, json.take limit, dom.take limit] := by
  constructor
  · cases api <;> cases json <;> cases dom <;> simp [mergeVideos, firstNonEmpty]
  · cases limit with
    | zero => cases api <;> cases json <;> cases dom <;> simp [mergeVideos, firstNonEmpty]
    | succ n => cases api <;> cases json <;> cases dom <;> simp [mergeVideos, firstNonEmpty]

/-! ## C2: the count parser -/

/-- C2 counterexample: `parse_count` is not total — on `"inf"` the
uncaught `OverflowError` of `int(float("inf"))` escapes (only `ValueError`
is caught) — and its result is not always non-negative: `"-5"` parses to
the negative integer −5. -/
theorem parse_count_cex :
    parse_count "inf" = Except.error PyError.overflowError
    ∧ parse_count "-5" = Except.ok (-5)
    ∧ (decide ((-5 : Int) < 0)) = true := by
  exact ⟨rfl, rfl, rfl⟩

/-- C2 amended: any error escaping `parse_count` is the `OverflowError`
raised by `int()` on an infinite float value (every `ValueError` — empty
input, malformed numeric prefix, nan — is caught and yields 0), and the
documented examples hold: `"" ↦ 0`, `"garbage" ↦ 0`, `"1234" ↦ 1234`,
`"1.2M" ↦ 1200000`, `"500K" ↦ 500000`, `"45.3K" ↦ 45300`. -/
theorem parse_count_amended :
    (∀ s e, parse_count s = Except.error e → e = PyError.overflowError)
    ∧ parse_count "" = Except.ok 0
    ∧ parse_count "garbage" = Except.ok 0
    ∧ parse_count "1234" = Except.ok 1234
    ∧ parse_count "1.2M" = Except.ok 1200000
    ∧ parse_count "500K" = Except.ok 500000
    ∧ parse_count "45.3K" = Except.ok 45300 := by
  refine ⟨?_, rfl, rfl, rfl, rfl, rfl, rfl⟩
  intro s e h
  unfold parse_count at h
  split at h
  · exact absurd h (by simp)
  · unfold countBranches at h
    split at h
    · exact parseBranchInt_error _ _ _ h
    · split at h
      · exact parseBranchInt_error _ _ _ h
      · split at h
        · exact parseBranchInt_error _ _ _ h
        · exact parseBranchInt_error _ _ _ h

/-- C2 witness: the error characterization applied at the concrete input
`"inf"`. -/
theorem parse_count_amended_witness : PyError.overflowError = PyError.overflowError :=
  parse_count_amended.1 "inf" PyError.overflowError rfl

/-! ## C3: authenticity classifier -/

/-- C3 counterexample: a list containing a record with a non-zero (here
negative) view count is classified inauthentic, because the code tests
`> 0`, not non-zero as the claim states. -/
theorem authenticity_cex :
    classifiedReal [negViewsRec] = false
    ∧ (negViewsRec.views.getD 0 == 0) = false := by
  exact ⟨rfl, rfl⟩

/-- C3 amended: a video list is classified real iff some record has a
positive (`> 0`) view count or a positive like count; the empty list and
an all-zero list are inauthentic, a zero-view one-like record is
authentic, and the inauthentic classification substitutes the demo batch
(setting `used_demo`). -/
theorem authenticity_positive_iff :
    (∀ videos, classifiedReal videos =
        videos.any (fun v => decide (0 < v.views.getD 0) || decide (0 < v.likes.getD 0)))
    ∧ classifiedReal [] = false
    ∧ classifiedReal [zeroRec] = false
    ∧ classifiedReal [oneLikeRec] = true
    ∧ (∀ scraped demo, classifiedReal scraped = false → selectVideos scraped demo = (demo, true))
    ∧ (∀ scraped demo, classifiedReal scraped = true → selectVideos scraped demo = (scraped, false)) := by
  refine ⟨?_, rfl, rfl, rfl, ?_, ?_⟩
  · intro videos
    simp only [classifiedReal, real_videos]
    exact not_isEmpty_filter _ videos
  · intro scraped demo h
    simp [selectVideos, h]
  · intro scraped demo h
    simp [selectVideos, h]

/-- C3 witness: the fallback branch applied at the empty scraped list. -/
theorem authenticity_positive_iff_witness :
    selectVideos [] [vidA] = ([vidA], true) :=
  authenticity_positive_iff.2.2.2.2.1 [] [vidA] rfl

/-! ## C4: item mapper and the listener's missing `None` filter -/

/-- C4: the item mapper returns `None` for an item lacking a usable id and
the embedded-JSON tier drops it, but `handle_response` appends the `None`
to `api_videos` unfiltered, so the id-less item does alter the API tier's
output (making it non-empty); an item with `diggCount` but no `likeCount`
maps to `likes = diggCount`. -/
theorem api_listener_keeps_none_entry :
    parse_api_video itemNoId "user" = none
    ∧ embeddedListItems "user" [itemNoId] = []
    ∧ apiListenItems "user" [itemNoId] = [none]
    ∧ (apiListenItems "user" [itemNoId]).isEmpty = false
    ∧ (∃ r, parse_api_video itemDigg "user" = some r ∧ r.likes = some 42) := by
  exact ⟨rfl, rfl, rfl, rfl, ⟨_, rfl, rfl⟩⟩

/-! ## C8: follower-count plausibility floor -/

/-- C8 counterexample: a blocked scrape (no profile, so a new follower
value of 0, and no real videos) overwrites a stored prior follower count
of 5000000 with the random demo value — the stored value is not left
unchanged even though the new value is ≤ 1000. -/
theorem follower_floor_cex :
    followerUpdate 5000000 0 [] 777777 = 777777
    ∧ ((777777 : Int) == 5000000) = false
    ∧ (decide ((0 : Int) ≤ 1000)) = true := by
  exact ⟨rfl, rfl, rfl⟩

/-- C8 amended: the scraped follower value itself overwrites the stored
count only when it exceeds 1000; a value ≤ 1000 leaves the stored count
unchanged when the scraped videos are classified authentic (and also at
exactly 1000 regardless), but when the videos are inauthentic and the
value is < 1000 the demo fallback replaces the stored count with its
random 500000–20000000 draw. -/
theorem follower_floor_amended :
    (∀ stored fc : Int, ∀ videos d, 1000 < fc → followerUpdate stored fc videos d = fc)
    ∧ (∀ stored fc : Int, ∀ videos d, fc ≤ 1000 → classifiedReal videos = true →
        followerUpdate stored fc videos d = stored)
    ∧ (∀ stored : Int, ∀ videos d, followerUpdate stored 1000 videos d = stored)
    ∧ (∀ stored fc : Int, ∀ videos d, fc < 1000 → classifiedReal videos = false →
        followerUpdate stored fc videos d = d) := by
  refine ⟨?_, ?_, ?_, ?_⟩
  · intro stored fc videos d h
    have h2 : ¬(fc < 1000) := by omega
    simp [followerUpdate, h, h2]
  · intro stored fc videos d h hr
    have h2 : ¬(1000 < fc) := by omega
    simp [followerUpdate, h2, hr]
  · intro stored videos d
    simp [followerUpdate]
  · intro stored fc videos d h hr
    have h2 : ¬(1000 < fc) := by omega
    simp [followerUpdate, h, h2, hr]

/-- C8 witness: the overwrite branch applied at a new value of 2000. -/
theorem follower_floor_amended_witness :
    followerUpdate 0 2000 [] 5 = 2000 :=
  follower_floor_amended.1 0 2000 [] 5 (by norm_num)

/-! ## C9: synthetic generator, likes versus views -/

/-- Truncation toward zero of a non-negative rational is non-negative. -/
theorem ratTrunc_nonneg (q : Rat) (h : 0 ≤ q) : 0 ≤ ratTrunc q := by
  unfold ratTrunc
  rw [if_pos (Rat.num_nonneg.mpr h)]
  exact Int.natCast_nonneg _

/-- Truncation toward zero of a non-negative rational is at most the
rational. -/
theorem ratTrunc_le (q : Rat) (h : 0 ≤ q) : (ratTrunc q : Rat) ≤ q := by
  unfold ratTrunc
  rw [if_pos (Rat.num_nonneg.mpr h)]
  have hden : (0 : Rat) < (q.den : Rat) := by exact_mod_cast q.den_pos
  conv_rhs => rw [← Rat.num_div_den q]
  rw [le_div_iff₀ hden]
  have hmul : (q.num.toNat / q.den) * q.den ≤ q.num.toNat := Nat.div_mul_le_self _ _
  have hnum : (q.num.toNat : Int) = q.num := Int.toNat_of_nonneg (Rat.num_nonneg.mpr h)
  calc ((q.num.toNat / q.den : Nat) : Rat) * (q.den : Rat)
      = (((q.num.toNat / q.den) * q.den : Nat) : Rat) := by push_cast; ring
    _ ≤ ((q.num.toNat : Nat) : Rat) := by exact_mod_cast hmul
    _ = (q.num : Rat) := by exact_mod_cast congrArg (fun z : Int => (z : Rat)) hnum

/-- A truncated fraction of a non-negative integer is at most the
integer, whenever the ratio is between 0 and 1. -/
theorem trunc_frac_le (views : Int) (r : Rat) (hv : 0 ≤ views) (h0 : 0 ≤ r) (h1 : r ≤ 1) :
    ratTrunc ((views : Rat) * r) ≤ views := by
  have hvq : (0 : Rat) ≤ (views : Rat) := by exact_mod_cast hv
  have hq : 0 ≤ (views : Rat) * r := mul_nonneg hvq h0
  have h2 : ((ratTrunc ((views : Rat) * r)) : Rat) ≤ (views : Rat) * r := ratTrunc_le _ hq
  have h3 : (views : Rat) * r ≤ (views : Rat) := by
    calc (views : Rat) * r ≤ (views : Rat) * 1 := mul_le_mul_of_nonneg_left h1 hvq
      _ = (views : Rat) := mul_one _
  exact_mod_cast h2.trans h3

/-- Every multiplier the generator can draw is non-negative. -/
theorem multChoices_nonneg : ∀ m ∈ multChoices, (0 : Rat) ≤ m := by
  intro m hm
  simp only [multChoices, List.mem_cons, List.not_mem_nil, or_false] at hm
  rcases hm with rfl | rfl | rfl | rfl | rfl | rfl | rfl | rfl | rfl | rfl <;> norm_num

/-- A generated view count is non-negative for admissible draws. -/
theorem demoViews_nonneg (base : Int) (mult jitter : Rat)
    (hb : 0 ≤ base) (hm : 0 ≤ mult) (hj : 0 ≤ jitter) :
    0 ≤ demoViews base mult jitter := by
  unfold demoViews
  apply ratTrunc_nonneg
  have hbq : (0 : Rat) ≤ (base : Rat) := by exact_mod_cast hb
  exact mul_nonneg (mul_nonneg hbq hm) hj

/-- C9 counterexample: the claim's existential is false — there is no
admissible draw of base views, multiplier, jitter and like ratio under
which a generated record's like count exceeds its view count, because
`likes = int(views * r)` with `0 ≤ r ≤ 0.2` and `views ≥ 0`. -/
theorem demo_likes_exceed_views_cex :
    (∃ (base : Int) (mult jitter r : Rat),
      500000 ≤ base ∧ base ≤ 50000000 ∧ mult ∈ multChoices ∧
      1/2 ≤ jitter ∧ jitter ≤ 3/2 ∧ 1/20 ≤ r ∧ r ≤ 1/5 ∧
      demoViews base mult jitter < demoLikes (demoViews base mult jitter) r) = False := by
  simp only [eq_iff_iff, iff_false]
  rintro ⟨base, mult, jitter, r, hb, _, hm, hj, _, hr0, hr1, hlt⟩
  have hm0 : (0 : Rat) ≤ mult := multChoices_nonneg _ hm
  have hv : 0 ≤ demoViews base mult jitter :=
    demoViews_nonneg base mult jitter (by omega) hm0 (by linarith)
  have hle : demoLikes (demoViews base mult jitter) r ≤ demoViews base mult jitter := by
    unfold demoLikes
    exact trunc_frac_le _ r hv (by linarith) (by linarith)
  exact absurd hlt (not_lt.mpr hle)

/-- C9 amended: `likeCount ≤ viewCount` IS guaranteed by construction for
every admissible draw — the like ratio is drawn from [0.05, 0.20], so the
truncated product never exceeds the (non-negative) view count.  (The
independence of the ratio draws can only invert metrics whose ranges
overlap, such as shares versus comments, never likes versus views.) -/
theorem demo_likes_le_views (base : Int) (mult jitter r : Rat)
    (hb : 500000 ≤ base) (hm : mult ∈ multChoices)
    (hj : 1/2 ≤ jitter) (hr0 : 0 ≤ r) (hr1 : r ≤ 1/5) :
    demoLikes (demoViews base mult jitter) r ≤ demoViews base mult jitter := by
  have hm0 : (0 : Rat) ≤ mult := multChoices_nonneg _ hm
  have hv : 0 ≤ demoViews base mult jitter :=
    demoViews_nonneg base mult jitter (by omega) hm0 (by linarith)
  unfold demoLikes
  exact trunc_frac_le _ r hv hr0 (by linarith)

/-- C9 witness: the bound applied at a concrete admissible draw. -/
theorem demo_likes_le_views_witness :
    demoLikes (demoViews 500000 1 1) (1/10) ≤ demoViews 500000 1 1 :=
  demo_likes_le_views 500000 1 1 (1/10) (by norm_num)
    (by simp [multChoices]) (by norm_num) (by norm_num) (by norm_num)

/-! ## C5: the scrape entry point never throws for platform failures -/

/-- C5: every platform-side failure inside the scrape attempt degrades to
an empty video list with an empty or partial profile (the `except
Exception` clause catches all of them), the `add_creator` route errors
only with HTTP 400 on an invalid (e.g. empty) username — a condition
independent of any browser outcome, hence decided before browser work —
and a valid username always yields the scraper's result. -/
theorem scrape_entry_degrades :
    (∀ u limit, scrapeSync u limit ScrapeEnv.failBeforeProfile =
        { profile := none, videos := [] })
    ∧ (∀ u limit p, scrapeSync u limit (ScrapeEnv.failAfterProfile p) =
        { profile := some p, videos := [] })
    ∧ (∀ raw env e, addCreatorScrape raw env = Except.error e →
        e = 400 ∧ usernameValid (stripUser raw) = false)
    ∧ (∀ raw env, usernameValid (stripUser raw) = true →
        addCreatorScrape raw env = Except.ok (scrapeSync (stripUser raw) 30 env))
    ∧ (∀ raw env1 env2, (addCreatorScrape raw env1).isOk = (addCreatorScrape raw env2).isOk) := by
  refine ⟨fun u limit => rfl, fun u limit p => rfl, ?_, ?_, ?_⟩
  · intro raw env e h
    unfold addCreatorScrape at h
    dsimp only at h
    split at h
    case isTrue hval =>
      refine ⟨by injection h with h2; exact h2.symm, ?_⟩
      simpa using hval
    case isFalse hval => exact absurd h (by simp)
  · intro raw env h
    simp [addCreatorScrape, h]
  · intro raw env1 env2
    cases hv : usernameValid (stripUser raw) <;>
      simp [addCreatorScrape, hv, Except.isOk, Except.toBool]

/-- C5 witness: an empty username is rejected with 400 independently of
the browser outcome, and the valid username `"alice"` is scraped. -/
theorem scrape_entry_degrades_witness :
    (400 = 400 ∧ usernameValid (stripUser "") = false)
    ∧ addCreatorScrape "alice" ScrapeEnv.failBeforeProfile =
        Except.ok (scrapeSync (stripUser "alice") 30 ScrapeEnv.failBeforeProfile) :=
  ⟨scrape_entry_degrades.2.2.1 "" ScrapeEnv.failBeforeProfile 400 rfl,
   scrape_entry_degrades.2.2.2.1 "alice" ScrapeEnv.failBeforeProfile rfl⟩

/-! ## C10: deleting a creator cascades to all of its videos -/

/-- C10: a successful `delete_creator` leaves no video row with the
deleted `creator_id` and no creator row with that id, keeps every other
video untouched, adds nothing, preserves referential integrity, and —
with unique creator primary keys — every remaining video still belongs to
exactly one remaining creator. -/
theorem delete_creator_cascade (db : DBState) (cid : Int) (db' : DBState)
    (h : delete_creator db cid = Except.ok db') :
    (∀ v ∈ db'.videos, v.creator_id ≠ cid)
    ∧ (∀ c ∈ db'.creators, c.id ≠ cid)
    ∧ (∀ v ∈ db.videos, v.creator_id ≠ cid → v ∈ db'.videos)
    ∧ (∀ v ∈ db'.videos, v ∈ db.videos)
    ∧ (refIntegrity db → refIntegrity db')
    ∧ ((db.creators.map (fun c => c.id)).Nodup → refIntegrity db →
        ∀ v ∈ db'.videos, ∃! c, c ∈ db'.creators ∧ c.id = v.creator_id) := by
  unfold delete_creator at h
  split at h
  case isFalse => exact absurd h (by simp)
  case isTrue hex =>
    injection h with h2
    subst h2
    have hvid : ∀ v ∈ db.videos.filter (fun v => !(v.creator_id == cid)),
        v ∈ db.videos ∧ v.creator_id ≠ cid := by
      intro v hv
      have := List.mem_filter.mp hv
      exact ⟨this.1, by simpa using this.2⟩
    have hcid : ∀ c ∈ db.creators.filter (fun c => !(c.id == cid)),
        c ∈ db.creators ∧ c.id ≠ cid := by
      intro c hc
      have := List.mem_filter.mp hc
      exact ⟨this.1, by simpa using this.2⟩
    refine ⟨?_, ?_, ?_, ?_, ?_, ?_⟩
    · intro v hv; exact (hvid v hv).2
    · intro c hc; exact (hcid c hc).2
    · intro v hv hne
      exact List.mem_filter.mpr ⟨hv, by simpa using hne⟩
    · intro v hv; exact (hvid v hv).1
    · intro hri v hv
      obtain ⟨hvm, hvne⟩ := hvid v hv
      obtain ⟨c, hc, hcid2⟩ := hri v hvm
      refine ⟨c, List.mem_filter.mpr ⟨hc, ?_⟩, hcid2⟩
      simp [hcid2 ▸ hvne]
    · intro hnd hri v hv
      obtain ⟨hvm, hvne⟩ := hvid v hv
      obtain ⟨c, hc, hcid2⟩ := hri v hvm
      refine ⟨c, ⟨List.mem_filter.mpr ⟨hc, by simp [hcid2 ▸ hvne]⟩, hcid2⟩, ?_⟩
      rintro c2 ⟨hc2, hcid3⟩
      have hc2m : c2 ∈ db.creators := (hcid c2 hc2).1
      exact List.inj_on_of_nodup_map hnd hc2m hc (hcid3.trans hcid2.symm)

/-- C10 witness: deleting creator 1 of the sample database keeps creator
2's video. -/
theorem delete_creator_cascade_witness :
    rowB ∈ ({ creators := [creator2], videos := [rowB] } : DBState).videos :=
  (delete_creator_cascade dbSample 1 { creators := [creator2], videos := [rowB] } rfl).2.2.1
    rowB (by simp [dbSample]) (by decide)

/-! ## Upsert lemmas (shared by C6 and C7) -/

/-- The row-membership test used by the existence check, expressed over
the id column. -/
theorem any_vid_eq (c : List VideoRow) (s : String) :
    c.any (fun r => r.video_id == s) = (rowIds c).any (fun x => x == s) := by
  induction c with
  | nil => rfl
  | cons r rs ih =>
    simp only [List.any_cons, rowIds, List.map_cons]
    rw [ih]
    rfl

/-- The id column of a cons. -/
theorem rowIds_cons (r : VideoRow) (rs : List VideoRow) :
    rowIds (r :: rs) = r.video_id :: rowIds rs := rfl

/-- A metric update never changes the id column. -/
theorem rowIds_updateFirst (rows : List VideoRow) (vid : String) (v : VideoDict) :
    rowIds (updateFirst rows vid v) = rowIds rows := by
  induction rows with
  | nil => rfl
  | cons r rs ih =>
    unfold updateFirst
    split
    · simp [rowIds, refreshMetrics]
    · simp only [rowIds, List.map_cons]
      simp only [rowIds] at ih
      rw [ih]

/-- The id column of a concatenation. -/
theorem rowIds_append (a b : List VideoRow) : rowIds (a ++ b) = rowIds a ++ rowIds b := by
  simp [rowIds]

/-- One upsert pass never changes the committed rows' id column. -/
theorem upsertLoop_fst (c : List VideoRow) (cid : Int) (vs : List VideoDict) :
    rowIds (upsertLoop c cid vs).1 = rowIds c := by
  induction vs generalizing c with
  | nil => rfl
  | cons v rest ih =>
    unfold upsertLoop
    split
    · exact ih c
    · split
      · dsimp only
        rw [ih (updateFirst c (dictVid v) v), rowIds_updateFirst]
      · dsimp only
        exact ih c

/-- The ids of the pass's pending inserts: the batch's non-empty ids that
are not among the committed ids (the check cannot see earlier pending
inserts, so batch-internal repetitions are NOT filtered out here). -/
theorem upsertLoop_pending (c : List VideoRow) (cid : Int) (vs : List VideoDict) :
    rowIds (upsertLoop c cid vs).2.1 =
      (batchIds vs).filter (fun s => !((rowIds c).any (fun x => x == s))) := by
  induction vs generalizing c with
  | nil => rfl
  | cons v rest ih =>
    unfold upsertLoop
    split
    case isTrue hskip =>
      rw [ih c]
      have : batchIds (v :: rest) = batchIds rest := by
        simp [batchIds, List.filter_cons, hskip]
      rw [this]
    case isFalse hns =>
      split
      case isTrue hfound =>
        dsimp only
        rw [ih (updateFirst c (dictVid v) v), rowIds_updateFirst]
        have hany : (rowIds c).any (fun x => x == dictVid v) = true := by
          rw [← any_vid_eq]; exact hfound
        simp [batchIds, List.filter_cons, hns, hany]
      case isFalse hnf =>
        dsimp only
        have hany : (rowIds c).any (fun x => x == dictVid v) = false := by
          rw [← any_vid_eq]; exact Bool.eq_false_iff.mpr hnf
        rw [rowIds_cons, ih c]
        have hb : batchIds (v :: rest) = dictVid v :: batchIds rest := by
          simp [batchIds, List.filter_cons, hns]
        rw [hb, List.filter_cons]
        simp [hany, rowOfDict]

/-- The returned count is the number of batch entries with a non-empty
external id, regardless of the committed state. -/
theorem upsertLoop_count (c : List VideoRow) (cid : Int) (vs : List VideoDict) :
    (upsertLoop c cid vs).2.2 = (batchIds vs).length := by
  induction vs generalizing c with
  | nil => rfl
  | cons v rest ih =>
    unfold upsertLoop
    split
    case isTrue hskip =>
      rw [ih c]
      simp [batchIds, List.filter_cons, hskip]
    case isFalse hns =>
      split
      · dsimp only
        rw [ih (updateFirst c (dictVid v) v)]
        simp [batchIds, List.filter_cons, hns]
      · dsimp only
        rw [ih c]
        simp [batchIds, List.filter_cons, hns]

/-- Updating an id that occurs in no row leaves the rows unchanged. -/
theorem map_update_of_not_mem (rs : List VideoRow) (vid : String) (v : VideoDict)
    (h : vid ∉ rowIds rs) :
    rs.map (fun r => if r.video_id = vid then refreshMetrics r v else r) = rs := by
  induction rs with
  | nil => rfl
  | cons a l ih =>
    simp only [rowIds, List.map_cons, List.mem_cons, not_or] at h
    rw [List.map_cons, if_neg (fun he => h.1 he.symm), ih h.2]

/-- With distinct committed ids, updating the first match equals mapping
the conditional update over all rows. -/
theorem updateFirst_eq_map (rows : List VideoRow) (vid : String) (v : VideoDict)
    (hnd : (rowIds rows).Nodup) :
    updateFirst rows vid v =
      rows.map (fun r => if r.video_id = vid then refreshMetrics r v else r) := by
  induction rows with
  | nil => rfl
  | cons r rs ih =>
    simp only [rowIds, List.map_cons, List.nodup_cons] at hnd
    unfold updateFirst
    split
    case isTrue h =>
      rw [List.map_cons, if_pos h, map_update_of_not_mem rs vid v (h ▸ hnd.1)]
    case isFalse h =>
      rw [List.map_cons, if_neg h, ih hnd.2]

/-! ## C7: the update branch refreshes only the metric columns -/

/-- C7: when the batch record matches an existing row by external id, the
upsert returns the table with only that row's views/likes/comments/shares
overwritten — caption, posted_at, duration, hashtags, creator_id and
video_id are untouched, and the result does not depend on the
`creator_id` the upsert was invoked for. -/
theorem upsert_refresh_metrics_only (db : List VideoRow) (cid : Int) (v : VideoDict)
    (vid : String) (hnd : (rowIds db).Nodup) (hv : v.video_id = some vid) (hne : vid ≠ "")
    (hfound : db.any (fun r => r.video_id == vid) = true) :
    upsertVideos db cid [v] =
      Except.ok (db.map (fun r => if r.video_id = vid then refreshMetrics r v else r), 1)
    ∧ (∀ r : VideoRow,
        (refreshMetrics r v).caption = r.caption
        ∧ (refreshMetrics r v).posted_at = r.posted_at
        ∧ (refreshMetrics r v).duration = r.duration
        ∧ (refreshMetrics r v).hashtags = r.hashtags
        ∧ (refreshMetrics r v).creator_id = r.creator_id
        ∧ (refreshMetrics r v).video_id = r.video_id
        ∧ (refreshMetrics r v).views = v.views.getD 0
        ∧ (refreshMetrics r v).likes = v.likes.getD 0
        ∧ (refreshMetrics r v).comments = v.comments.getD 0
        ∧ (refreshMetrics r v).shares = v.shares.getD 0) := by
  have hdv : dictVid v = vid := by simp [dictVid, hv]
  constructor
  · have hnodup : (rowIds (updateFirst db vid v ++ [])).Nodup := by
      rw [List.append_nil, rowIds_updateFirst]; exact hnd
    simp only [upsertVideos, upsertLoop]
    rw [hdv, if_neg hne, if_pos hfound]
    dsimp only
    rw [if_pos hnodup, List.append_nil, updateFirst_eq_map db vid v hnd]
  · intro r
    exact ⟨rfl, rfl, rfl, rfl, rfl, rfl, rfl, rfl, rfl, rfl⟩

/-- C7 witness: updating `rowA`'s metrics through an upsert invoked for
the different creator 2. -/
theorem upsert_refresh_metrics_only_witness :
    upsertVideos [rowA] 2 [vidANew] =
      Except.ok ([rowA].map (fun r =>
        if r.video_id = "7000000000000000003" then refreshMetrics r vidANew else r), 1)
    ∧ (∀ r : VideoRow,
        (refreshMetrics r vidANew).caption = r.caption
        ∧ (refreshMetrics r vidANew).posted_at = r.posted_at
        ∧ (refreshMetrics r vidANew).duration = r.duration
        ∧ (refreshMetrics r vidANew).hashtags = r.hashtags
        ∧ (refreshMetrics r vidANew).creator_id = r.creator_id
        ∧ (refreshMetrics r vidANew).video_id = r.video_id
        ∧ (refreshMetrics r vidANew).views = vidANew.views.getD 0
        ∧ (refreshMetrics r vidANew).likes = vidANew.likes.getD 0
        ∧ (refreshMetrics r vidANew).comments = vidANew.comments.getD 0
        ∧ (refreshMetrics r vidANew).shares = vidANew.shares.getD 0) :=
  upsert_refresh_metrics_only [rowA] 2 vidANew "7000000000000000003"
    (by simp [rowIds, rowA]) rfl (by decide) rfl

/-! ## C6: upsert idempotence -/

/-- C6 counterexample: a batch that repeats one fresh external id makes
`_upsert_videos` raise `IntegrityError` at commit instead of returning a
row count — the existence check (`autoflush=False`) cannot see the row
added earlier in the same pass, so both copies are inserted and the
UNIQUE constraint fires. -/
theorem upsert_dup_batch_cex :
    upsertVideos [] 5 [vidA, vidA] = Except.error DBError.integrityError := by
  rfl

/-- C6 amended: for a batch whose non-empty external ids are pairwise
distinct, the upsert succeeds, calling it twice returns the same count
(the number of records with a non-empty external id) both times, no
duplicate external ids are ever persisted, the first call adds exactly
the batch's fresh ids, and the second call adds none. -/
theorem upsert_idempotent (db : List VideoRow) (cid : Int) (vs : List VideoDict)
    (hnd : (rowIds db).Nodup) (hnb : (batchIds vs).Nodup) :
    ∃ db1 db2 k,
      upsertVideos db cid vs = Except.ok (db1, k)
      ∧ upsertVideos db1 cid vs = Except.ok (db2, k)
      ∧ k = (batchIds vs).length
      ∧ rowIds db1 =
          rowIds db ++ (batchIds vs).filter (fun s => !((rowIds db).any (fun x => x == s)))
      ∧ rowIds db2 = rowIds db1
      ∧ (rowIds db1).Nodup ∧ (rowIds db2).Nodup := by
  have hids1 : rowIds ((upsertLoop db cid vs).1 ++ (upsertLoop db cid vs).2.1)
      = rowIds db ++ (batchIds vs).filter (fun s => !((rowIds db).any (fun x => x == s))) := by
    rw [rowIds_append, upsertLoop_fst, upsertLoop_pending]
  have hnd1 : (rowIds ((upsertLoop db cid vs).1 ++ (upsertLoop db cid vs).2.1)).Nodup := by
    rw [hids1, List.nodup_append]
    refine ⟨hnd, hnb.filter _, ?_⟩
    intro a ha hb
    have hmem := (List.mem_filter.mp hb).2
    simp only [Bool.not_eq_true'] at hmem
    rw [List.any_eq_false] at hmem
    exact (hmem a ha) (by simp)
  have h1 : upsertVideos db cid vs =
      Except.ok ((upsertLoop db cid vs).1 ++ (upsertLoop db cid vs).2.1,
        (upsertLoop db cid vs).2.2) := by
    simp only [upsertVideos]
    rw [if_pos hnd1]
  have hcover : ∀ s ∈ batchIds vs,
      (rowIds ((upsertLoop db cid vs).1 ++ (upsertLoop db cid vs).2.1)).any
        (fun x => x == s) = true := by
    intro s hs
    rw [hids1, List.any_append]
    cases hin : (rowIds db).any (fun x => x == s) with
    | true => simp
    | false =>
      rw [Bool.or_eq_true]
      right
      rw [List.any_eq_true]
      refine ⟨s, List.mem_filter.mpr ⟨hs, ?_⟩, by simp⟩
      simp [hin]
  have hpend2 : rowIds
      (upsertLoop ((upsertLoop db cid vs).1 ++ (upsertLoop db cid vs).2.1) cid vs).2.1 = [] := by
    rw [upsertLoop_pending, List.filter_eq_nil_iff]
    intro a ha
    simp [hcover a ha]
  have hp2nil :
      (upsertLoop ((upsertLoop db cid vs).1 ++ (upsertLoop db cid vs).2.1) cid vs).2.1 = [] := by
    have h := hpend2
    unfold rowIds at h
    exact List.map_eq_nil_iff.mp h
  have hids2 : rowIds
      ((upsertLoop ((upsertLoop db cid vs).1 ++ (upsertLoop db cid vs).2.1) cid vs).1 ++
        (upsertLoop ((upsertLoop db cid vs).1 ++ (upsertLoop db cid vs).2.1) cid vs).2.1)
      = rowIds ((upsertLoop db cid vs).1 ++ (upsertLoop db cid vs).2.1) := by
    rw [rowIds_append, upsertLoop_fst, hpend2, List.append_nil]
  have hnd2 : (rowIds
      ((upsertLoop ((upsertLoop db cid vs).1 ++ (upsertLoop db cid vs).2.1) cid vs).1 ++
        (upsertLoop ((upsertLoop db cid vs).1 ++ (upsertLoop db cid vs).2.1) cid vs).2.1)).Nodup := by
    rw [hids2]; exact hnd1
  have h2 : upsertVideos ((upsertLoop db cid vs).1 ++ (upsertLoop db cid vs).2.1) cid vs =
      Except.ok
        ((upsertLoop ((upsertLoop db cid vs).1 ++ (upsertLoop db cid vs).2.1) cid vs).1 ++
          (upsertLoop ((upsertLoop db cid vs).1 ++ (upsertLoop db cid vs).2.1) cid vs).2.1,
         (upsertLoop ((upsertLoop db cid vs).1 ++ (upsertLoop db cid vs).2.1) cid vs).2.2) := by
    simp only [upsertVideos]
    rw [if_pos hnd2]
  have hk2 : (upsertLoop ((upsertLoop db cid vs).1 ++ (upsertLoop db cid vs).2.1) cid vs).2.2
      = (upsertLoop db cid vs).2.2 := by
    rw [upsertLoop_count, upsertLoop_count]
  refine ⟨(upsertLoop db cid vs).1 ++ (upsertLoop db cid vs).2.1,
    (upsertLoop ((upsertLoop db cid vs).1 ++ (upsertLoop db cid vs).2.1) cid vs).1 ++
      (upsertLoop ((upsertLoop db cid vs).1 ++ (upsertLoop db cid vs).2.1) cid vs).2.1,
    (upsertLoop db cid vs).2.2, h1, ?_, upsertLoop_count db cid vs, hids1, hids2, hnd1, hnd2⟩
  rw [h2, hk2]

/-- C6 witness: the idempotence statement applied to a two-record batch
with distinct ids against an empty table. -/
theorem upsert_idempotent_witness :
    ∃ db1 db2 k,
      upsertVideos [] 1 [vidA, vidB] = Except.ok (db1, k)
      ∧ upsertVideos db1 1 [vidA, vidB] = Except.ok (db2, k)
      ∧ k = (batchIds [vidA, vidB]).length
      ∧ rowIds db1 =
          rowIds [] ++ (batchIds [vidA, vidB]).filter
            (fun s => !((rowIds ([] : List VideoRow)).any (fun x => x == s)))
      ∧ rowIds db2 = rowIds db1
      ∧ (rowIds db1).Nodup ∧ (rowIds db2).Nodup :=
  upsert_idempotent [] 1 [vidA, vidB] (by simp [rowIds]) (by decide)

end TikTok

